import Mathlib

/-!
Verification of the expense-tracking web application (`expense-web-upload/app`).

The embedding translates the Python source files `models.py`, `crud.py`,
`main.py` and `auth.py` into Lean.  The database is a `List Record`; monetary
amounts (`Numeric(12, 2)` in the schema, Python floats in the code) are
idealised as rationals; dates are year/month/day triples.  The runtime
attribute probing of `crud._has_col` is modelled by membership in the concrete
list of column names that `models.Record` declares, which is what Python's
`hasattr(models.Record, name)` computes.
-/

/-- A calendar date, as stored in the `r_date` column (`Date`, no time of day). -/
structure Date where
  year : Nat
  month : Nat
  day : Nat
deriving DecidableEq, Repr

/-- Strict chronological order on dates (year, then month, then day). -/
def Date.lt (a b : Date) : Bool :=
  a.year < b.year ||
    (a.year == b.year && (a.month < b.month || (a.month == b.month && a.day < b.day)))

/-- A persisted row of the `records` table, following `models.Record`
(`models.py` lines 16-36): `id` (primary key), `user_id` (NOT NULL),
`r_type` (NOT NULL), `category` (NOT NULL, default "其他"), `amount`
(NOT NULL), `note` (nullable), `r_date` (NOT NULL).  The server-set
`created_at` timestamp is not consulted by any claim and is omitted. -/
structure Record where
  id : Nat
  user_id : Nat
  r_type : String
  category : String
  amount : Rat
  note : Option String
  r_date : Date
deriving DecidableEq, Repr

/-- The attribute names declared on the class `models.Record`: its columns and
its `user` relationship.  `hasattr(models.Record, name)` is true exactly for
these names (besides SQLAlchemy machinery that `crud.py` never probes for). -/
def recordColumns : List String :=
  ["id", "user_id", "r_type", "category", "amount", "note", "r_date", "created_at", "user"]

/-- `crud._has_col` (crud.py lines 17-20): `hasattr(models.Record, col_name)`. -/
def has_col (col_name : String) : Bool :=
  decide (col_name ∈ recordColumns)

/-- Insert a record into a list kept in descending `id` order. -/
def insertByIdDesc (r : Record) : List Record → List Record
  | [] => [r]
  | x :: xs => if x.id ≤ r.id then r :: x :: xs else x :: insertByIdDesc r xs

/-- Sort a list of records by `id` descending (ids are unique: primary key). -/
def sortByIdDesc (l : List Record) : List Record :=
  l.foldr insertByIdDesc []

/-- `crud.list_recent` (crud.py lines 23-35).  The source orders by `date`
descending when the model has a `date` column, else by `date_str` descending
when it has one, then by `id` descending, and takes `limit` rows.
`models.Record` declares neither `date` nor `date_str` (its column is
`r_date`), so only the `id` ordering applies. -/
def list_recent (db : List Record) (limit : Nat := 200) : List Record :=
  let q := db
  let q :=
    if has_col "date" then q          -- would order by the absent column `date`
    else if has_col "date_str" then q -- would order by the absent column `date_str`
    else q
  let q := if has_col "id" then sortByIdDesc q else q
  q.take limit

/-- `crud.list_records` (crud.py lines 38-41): an alias that forwards to
`list_recent` with the same `limit`. -/
def list_records (db : List Record) (limit : Nat := 200) : List Record :=
  list_recent db limit

/-- Round-half-to-even to an integer, the rounding Python's `round` uses
(the code applies it to exact two-decimal sums here, idealised as rationals). -/
def roundHalfEven (x : Rat) : Int :=
  let f : Int := Int.floor x
  let frac : Rat := x - (f : Rat)
  if frac < 1/2 then f
  else if 1/2 < frac then f + 1
  else if f % 2 = 0 then f else f + 1

/-- `round(x, 2)`: round to two decimal places, half to even. -/
def round2 (x : Rat) : Rat :=
  (roundHalfEven (x * 100) : Rat) / 100

/-- The dictionary returned by `crud.month_totals` (crud.py lines 130-135). -/
structure MonthTotals where
  month : String
  total_expense : Rat
  total_income : Rat
  balance : Rat
deriving DecidableEq, Repr

/-- `crud.month_totals` (crud.py lines 91-135).  The source builds the grouped
rows `(r_type, sum(amount))` from a query filtered on `date_str` when the model
has a `date_str` column, else on `to_char(date, 'YYYY-MM')` when it has a
`date` column, else uses no rows at all.  `models.Record` declares neither
column (its date column is `r_date`), so `rows = []` on this model and both
accumulators keep their initial `0.0`. -/
def month_totals (db : List Record) (month : String) : MonthTotals :=
  let rows : List (String × Option Rat) :=
    if has_col "date_str" then []   -- would group-sum by `r_type` over the absent `date_str`
    else if has_col "date" then []  -- would group-sum by `r_type` over the absent `date`
    else []
  let totals :=
    rows.foldl
      (fun (acc : Rat × Rat) p =>
        match p.2 with
        | none => acc
        | some s =>
          if p.1 = "expense" ∨ p.1 = "支出" then (s, acc.2)
          else if p.1 = "income" ∨ p.1 = "收入" then (acc.1, s)
          else acc)
      (0, 0)
  { month := month
    total_expense := round2 totals.1
    total_income := round2 totals.2
    balance := round2 (totals.2 - totals.1) }

/-- One entry of the list returned by `crud.month_category_breakdown`. -/
structure CatTotal where
  category : String
  total : Rat
deriving DecidableEq, Repr

/-- `crud.month_category_breakdown` (crud.py lines 138-170).  The source builds
grouped rows `(category, sum(amount))` filtered on `r_type` and on `date_str`
(when the model has that column) or `to_char(date, 'YYYY-MM')` (when it has a
`date` column), ordered by the summed amount descending; with neither column on
`models.Record`, `rows = []`.  Each row is then emitted as
`{"category": cat or "未分类", "total": float(total or 0.0)}`, where Python's
`or` replaces a falsy (empty) category by "未分类" and a missing sum by `0.0`. -/
def month_category_breakdown (db : List Record) (month : String) (r_type : String) :
    List CatTotal :=
  let rows : List (String × Option Rat) :=
    if has_col "date_str" then []   -- would group-sum by `category` over the absent `date_str`
    else if has_col "date" then []  -- would group-sum by `category` over the absent `date`
    else []
  rows.map (fun p =>
    { category := if p.1 = "" then "未分类" else p.1
      total := p.2.getD 0 })

/-- The intended order of breakdown entries named by the specification:
strictly larger totals first, equal totals in ascending lexical category
order. -/
def breakdownOrdered (a b : CatTotal) : Prop :=
  b.total < a.total ∨ (a.total = b.total ∧ a.category ≤ b.category)

/-- An object of class `models.Record` freshly constructed by `R()` inside
`crud.create_record`, before `db.commit()`: every attribute the function may
`setattr` is still unset (`none`).  The fields `type`, `date` and `date_str`
exist only so the guarded `setattr` branches of the source can be written;
they are not columns of the table. -/
structure PendingRecord where
  r_type : Option String := none
  type_attr : Option String := none
  amount : Option Rat := none
  category : Option String := none
  note : Option String := none
  date_attr : Option Date := none
  date_str : Option String := none
  r_date : Option Date := none
  user_id : Option Nat := none

inductive DbError where
  | integrityError
deriving DecidableEq, Repr

/-- The next autoincrement primary key for the `records` table. -/
def nextId (db : List Record) : Nat :=
  (db.foldl (fun m r => max m r.id) 0) + 1

/-- `db.add(obj); db.commit()` against the `records` table of `models.py`:
the column default `category="其他"` is applied when the attribute is unset,
and the NOT NULL constraints on `user_id`, `r_type`, `amount` and `r_date`
reject the insert (`IntegrityError`) when any of them is still NULL.  On
success the row receives the next primary key and is appended. -/
def commitRecord (db : List Record) (obj : PendingRecord) :
    Except DbError (List Record × Record) :=
  let category := obj.category.getD "其他"
  match obj.user_id, obj.r_type, obj.amount, obj.r_date with
  | some uid, some t, some a, some d =>
    let row : Record :=
      { id := nextId db, user_id := uid, r_type := t, category := category
        amount := a, note := obj.note, r_date := d }
    Except.ok (db ++ [row], row)
  | _, _, _, _ => Except.error DbError.integrityError

/-- Zero-pad a number to two digits, as `%m` / `%d` of `strftime` do. -/
def pad2 (n : Nat) : String :=
  if n < 10 then "0" ++ toString n else toString n

/-- Zero-pad a year to four digits, as `%Y` of `strftime` does. -/
def pad4 (n : Nat) : String :=
  if n < 10 then "000" ++ toString n
  else if n < 100 then "00" ++ toString n
  else if n < 1000 then "0" ++ toString n
  else toString n

/-- `d.strftime("%Y-%m-%d")`. -/
def Date.fmtYMD (d : Date) : String :=
  pad4 d.year ++ "-" ++ pad2 d.month ++ "-" ++ pad2 d.day

/-- Drop whitespace from both ends of a character list. -/
def stripChars (cs : List Char) : List Char :=
  ((cs.dropWhile Char.isWhitespace).reverse.dropWhile Char.isWhitespace).reverse

/-- Python's `s.strip()` with no argument: remove leading and trailing
whitespace. -/
def pyStrip (s : String) : String :=
  (stripChars s.toList).asString

/-- Replace every occurrence of one character by another; Python's
`s.replace("/", "-")` for one-character patterns. -/
def replaceChar (old new : Char) (s : String) : String :=
  (s.toList.map (fun c => if c = old then new else c)).asString

/-- Split a character list on a separator character; like Python's
`"a-b".split("-")`, adjacent separators yield empty groups. -/
def splitOnChar (sep : Char) : List Char → List (List Char)
  | [] => [[]]
  | c :: cs =>
    let rest := splitOnChar sep cs
    if c = sep then [] :: rest
    else
      match rest with
      | [] => [[c]]
      | g :: gs => (c :: g) :: gs

/-- Numeric value of a digit list (most significant first). -/
def digitsVal (cs : List Char) : Nat :=
  cs.foldl (fun a c => 10 * a + (c.toNat - Char.toNat '0')) 0

/-- A non-empty all-digit character list, as `int` parsing inside `strptime`
accepts for each field; `none` otherwise. -/
def digitsToNat? (cs : List Char) : Option Nat :=
  if cs ≠ [] ∧ cs.all Char.isDigit then some (digitsVal cs) else none

/-- `crud.create_record` (crud.py lines 44-88).  Each `setattr` is guarded by
`_has_col`; on `models.Record` the guards for `r_type`, `amount`, `category`
and `note` succeed while those for `type`, `date` and `date_str` fail, so the
date (and the caller's identity) are never stored on the object.  `today`
stands for `date.today()`, the default used when `date_value` is `None`.
The final `db.add`/`db.commit`/`db.refresh` is `commitRecord`. -/
def create_record (db : List Record) (r_type : String) (amount : Rat) (category : String)
    (date_value : Option Date := none) (date_str : Option String := none)
    (note : String := "") (today : Date := ⟨2024, 1, 1⟩) :
    Except DbError (List Record × Record) :=
  let obj : PendingRecord := {}
  let obj :=
    if has_col "r_type" then { obj with r_type := some r_type }
    else if has_col "type" then { obj with type_attr := some r_type }
    else obj
  let obj := if has_col "amount" then { obj with amount := some amount } else obj
  let obj := if has_col "category" then { obj with category := some category } else obj
  let obj := if has_col "note" then { obj with note := some note } else obj
  let date_value := date_value.getD today
  let obj := if has_col "date" then { obj with date_attr := some date_value } else obj
  let obj :=
    if has_col "date_str" then
      let ds :=
        match date_str with
        | some s =>
          if s ≠ "" ∧ 8 ≤ (pyStrip s).length then replaceChar '/' '-' (pyStrip s)
          else date_value.fmtYMD
        | none => date_value.fmtYMD
      { obj with date_str := some ds }
    else obj
  commitRecord db obj

inductive PyError where
  | valueError
  | typeError
deriving DecidableEq, Repr

/-- True for a leap year, as Python's calendar has it. -/
def isLeap (y : Nat) : Bool :=
  (y % 4 == 0 && y % 100 != 0) || y % 400 == 0

/-- Number of days in a month of a given year. -/
def daysInMonth (y m : Nat) : Nat :=
  if m = 2 then (if isLeap y then 29 else 28)
  else if m = 4 ∨ m = 6 ∨ m = 9 ∨ m = 11 then 30
  else 31

/-- `datetime.strptime(ss, "%Y-%m-%d").date()`: the string must be three
dash-separated digit groups forming a valid calendar date (year within the
four digits `%Y` matches); otherwise `ValueError`. -/
def strptime_Ymd (s : String) : Except PyError Date :=
  match splitOnChar '-' s.toList with
  | [ys, ms, ds] =>
    match digitsToNat? ys, digitsToNat? ms, digitsToNat? ds with
    | some y, some m, some d =>
      if 1 ≤ y ∧ y ≤ 9999 ∧ 1 ≤ m ∧ m ≤ 12 ∧ 1 ≤ d ∧ d ≤ daysInMonth y m then
        Except.ok ⟨y, m, d⟩
      else Except.error PyError.valueError
    | _, _, _ => Except.error PyError.valueError
  | _ => Except.error PyError.valueError

/-- `main._parse_date_any` (main.py lines 24-26): strip the input, turn `/`
into `-`, and parse with `strptime("%Y-%m-%d")`; raises `ValueError` on any
malformed or non-calendar date. -/
def parse_date_any (s : String) : Except PyError Date :=
  let ss := replaceChar '/' '-' (pyStrip s)
  strptime_Ymd ss

/-- True when the character list is one or more ASCII digits. -/
def isDigits (cs : List Char) : Bool :=
  !cs.isEmpty && cs.all (·.isDigit)

/-- Value of the fractional digit list: `"05"` contributes `5 / 10 ^ 2`. -/
def fracVal (cs : List Char) : Rat :=
  (digitsVal cs : Rat) / (10 : Rat) ^ cs.length

/-- An unsigned decimal literal `digits [. digits]` with at least one digit,
as Python's `float` accepts for the mantissa. -/
def parseDecimalCore (cs : List Char) : Option Rat :=
  match splitOnChar '.' cs with
  | [ip] => if isDigits ip then some (digitsVal ip : Rat) else none
  | [ip, fp] =>
    if (isDigits ip || ip.isEmpty) && (isDigits fp || fp.isEmpty) &&
        !(ip.isEmpty && fp.isEmpty) then
      some ((digitsVal ip : Rat) + fracVal fp)
    else none
  | _ => none

/-- An optionally signed digit list, as the exponent of a float literal. -/
def parseIntPy (cs : List Char) : Option Int :=
  match cs with
  | '-' :: rest => (digitsToNat? rest).map (fun n => -(n : Int))
  | '+' :: rest => (digitsToNat? rest).map (fun n => (n : Int))
  | _ => (digitsToNat? cs).map (fun n => (n : Int))

/-- Ten to an integer power, as a rational. -/
def ratPow10 (k : Int) : Rat :=
  if 0 ≤ k then ((10 : Rat) ^ k.toNat) else 1 / (10 : Rat) ^ (-k).toNat

/-- The form-to-`float` coercion FastAPI applies to `amount: float = Form(...)`
(main.py line 213): Python's numeric literal syntax — optional surrounding
spaces, optional sign, decimal mantissa, optional `e`/`E` exponent.  `none`
means the framework rejects the request with a 422 validation error before the
handler runs.  (The special forms `inf`/`nan` and digit underscores are not
modelled; no claim touches them.) -/
def parseFloatPy (s : String) : Option Rat :=
  let t := stripChars s.toList
  let (sgn, t) : Rat × List Char :=
    match t with
    | '-' :: rest => (-1, rest)
    | '+' :: rest => (1, rest)
    | _ => (1, t)
  let t := t.map Char.toLower
  match splitOnChar 'e' t with
  | [m] => (parseDecimalCore m).map (fun r => sgn * r)
  | [m, e] =>
    match parseDecimalCore m, parseIntPy e with
    | some r, some k => some (sgn * r * ratPow10 k)
    | _, _ => none
  | _ => none

/-- `t = (type or "").strip(); if t not in ("expense", "income"): t = "expense"`
(main.py lines 222-224): an unknown type is silently replaced by `"expense"`. -/
def normalize_type (s : String) : String :=
  let t := pyStrip s
  if t = "expense" ∨ t = "income" then t else "expense"

/-- The keyword parameters `crud.create_record` accepts (crud.py lines 44-52). -/
def create_record_params : List String :=
  ["db", "r_type", "amount", "category", "date_value", "date_str", "note"]

/-- The keyword arguments `main.add_post` passes to `crud.create_record`
(main.py lines 230-238). -/
def add_post_call_kwargs : List String :=
  ["db", "user_id", "type_", "amount", "category", "d", "note"]

/-- The call `crud.create_record(db=db, user_id=uid, type_=t, ...)` in
`main.add_post`: Python binds keyword arguments against the callee's
parameter list and raises `TypeError` when a keyword is not a parameter.
`user_id`, `type_` and `d` are not parameters of `crud.create_record`, so the
call raises before the function body runs and the database is untouched. -/
def add_post_create_call (db : List Record) : Except PyError (List Record) :=
  if add_post_call_kwargs.all (fun k => decide (k ∈ create_record_params)) then
    -- binding would succeed; never reached with the source's keyword lists
    Except.ok db
  else Except.error PyError.typeError

/-- Observable outcome of a `POST /add` request. -/
inductive AddOutcome where
  | validationError422  -- FastAPI rejects the form before the handler runs
  | loginRedirect       -- 303 to /login: no session cookie
  | redirectHome        -- 303 to /: the happy path of the source
  | serverError         -- an uncaught exception inside the handler: HTTP 500
deriving DecidableEq, Repr

/-- The form fields of `POST /add` (main.py lines 210-216), as submitted. -/
structure AddForm where
  type_field : String
  amount : String
  category : String
  date : String
  note : String := ""
deriving DecidableEq, Repr

/-- `main.add_post` (main.py lines 209-242).  FastAPI first coerces `amount`
to `float` (422 on failure); the handler then requires a session, normalizes
the type, parses the date with `_parse_date_any` (whose `ValueError` is not
caught: HTTP 500), and calls `crud.create_record` with the keyword arguments
`db, user_id, type_, amount, category, d, note` — three of which the callee
does not accept, so the call raises `TypeError` (uncaught: HTTP 500). -/
def add_post (db : List Record) (uid : Option Nat) (form : AddForm) :
    AddOutcome × List Record :=
  match parseFloatPy form.amount with
  | none => (AddOutcome.validationError422, db)
  | some _amt =>
    match uid with
    | none => (AddOutcome.loginRedirect, db)
    | some _u =>
      let _t := normalize_type form.type_field
      match parse_date_any form.date with
      | Except.error _ => (AddOutcome.serverError, db)
      | Except.ok _d =>
        match add_post_create_call db with
        | Except.error _ => (AddOutcome.serverError, db)
        | Except.ok db2 => (AddOutcome.redirectHome, db2)

/-- An exception raised by the underlying `passlib` verification. -/
inductive PyExc where
  | exc
deriving DecidableEq, Repr

/-- `auth.verify_password` (auth.py lines 15-20): delegate to
`pwd_context.verify` (the external passlib call, abstracted as `verifyImpl`,
which either returns a boolean or raises) and map any raised exception to
`False`. -/
def verify_password (verifyImpl : String → String → Except PyExc Bool)
    (password password_hash : String) : Bool :=
  match verifyImpl password password_hash with
  | Except.ok b => b
  | Except.error _ => false

/-- An expense of 7 in January 2024, used to exercise `month_totals`. -/
def recC2 : Record := ⟨1, 1, "expense", "food", 7, none, ⟨2024, 1, 15⟩⟩

/-- An expense with an empty category label, used to exercise the breakdown. -/
def recC5 : Record := ⟨1, 1, "expense", "", 10, none, ⟨2024, 1, 15⟩⟩

/-- The record with the smaller id but the later date. -/
def recC6a : Record := ⟨1, 1, "expense", "food", 10, none, ⟨2024, 5, 1⟩⟩

/-- The record with the larger id but the earlier date. -/
def recC6b : Record := ⟨2, 1, "income", "salary", 5, none, ⟨2024, 1, 1⟩⟩

/-- A `POST /add` form whose type field is neither "expense" nor "income". -/
def formC7 : AddForm := ⟨"banana", "10", "food", "2024-01-15", ""⟩

/-- A `POST /add` form with a valid amount and the invalid date `13/45/2024`. -/
def formC8date : AddForm := ⟨"expense", "10", "food", "13/45/2024", ""⟩

/-- A `POST /add` form whose amount `"abc"` is not parseable as a number. -/
def formC8amount : AddForm := ⟨"expense", "abc", "food", "2024-01-15", ""⟩

theorem round2_zero : round2 0 = 0 := by
  norm_num [round2, roundHalfEven]

theorem add_post_create_call_raises (db : List Record) :
    add_post_create_call db = Except.error PyError.typeError := rfl

/-- C1: the create-then-list round trip fails on this code.  A valid call of
`create_record` (type "expense", amount 10, category "food", date 2024-01-15)
never stores the passed date — the function probes for columns `date` and
`date_str` that `models.Record` does not declare, leaves `r_date` and
`user_id` NULL, and the insert is rejected by the model's NOT NULL
constraints — so no record carrying the passed field values is ever listed. -/
theorem create_record_insert_rejected_on_own_model :
    create_record [] "expense" 10 "food" (some ⟨2024, 1, 15⟩) none "" ⟨2024, 6, 1⟩ =
      Except.error DbError.integrityError := rfl

/-- C2: `month_totals` does not sum the records of the month.  With a single
expense record of amount 7 dated 2024-01-15 in the store, the totals for
month "2024-01" are all zero instead of `total_expense = 7`: the function
only builds its grouped rows when the model has a `date_str` or `date`
column, and `models.Record` has neither. -/
theorem month_totals_returns_zero_despite_expense :
    month_totals [recC2] "2024-01" =
        { month := "2024-01", total_expense := 0, total_income := 0, balance := 0 } ∧
      recC2.r_type = "expense" ∧ recC2.amount = 7 ∧ recC2.r_date = ⟨2024, 1, 15⟩ := by
  refine ⟨?_, rfl, rfl, rfl⟩
  show MonthTotals.mk "2024-01" (round2 0) (round2 0) (round2 ((0 : Rat) - 0)) =
    MonthTotals.mk "2024-01" 0 0 0
  rw [sub_zero, round2_zero]

/-- C3: for every database state and every month, the `balance` field returned
by `month_totals` equals the returned `total_income` minus the returned
`total_expense` (on this model both totals are always zero, so the identity
holds exactly). -/
theorem month_totals_balance_eq_income_sub_expense (db : List Record) (month : String) :
    (month_totals db month).balance =
      (month_totals db month).total_income - (month_totals db month).total_expense := by
  show round2 ((0 : Rat) - 0) = round2 0 - round2 0
  rw [sub_zero, round2_zero, sub_zero]

/-- C4: for every database state, month and record type, the sequence returned
by `month_category_breakdown` is sorted by per-category total descending with
ties in ascending lexical category order — vacuously, because on this model
the returned sequence is always empty. -/
theorem month_category_breakdown_pairwise_ordered (db : List Record)
    (month r_type : String) :
    List.Pairwise breakdownOrdered (month_category_breakdown db month r_type) := by
  have h : month_category_breakdown db month r_type = [] := rfl
  rw [h]
  exact List.Pairwise.nil

/-- C5: a record whose category label is the empty string is not reported by
the category breakdown at all — the normalization `cat or "未分类"` on line 169
of crud.py is never exercised, because the grouped rows are always empty on
this model — contradicting the claim that such a record appears under the
fixed "uncategorized" label. -/
theorem month_category_breakdown_omits_empty_category_record :
    recC5.category = "" ∧ recC5.r_type = "expense" ∧ recC5.r_date = ⟨2024, 1, 15⟩ ∧
      month_category_breakdown [recC5] "2024-01" "expense" = [] :=
  ⟨rfl, rfl, rfl, rfl⟩

/-- C6: `list_recent` does not order by date.  On a store holding record id 1
dated 2024-05-01 and record id 2 dated 2024-01-01 it returns the id-descending
sequence, whose first element carries the strictly older date — the claimed
date-descending order would return the other sequence.  (The `date` ordering
clause is skipped because `models.Record` has no `date`/`date_str` column.) -/
theorem list_recent_returns_older_date_first :
    list_recent [recC6a, recC6b] 200 = [recC6b, recC6a] ∧
      Date.lt recC6b.r_date recC6a.r_date = true :=
  ⟨rfl, by decide⟩

/-- C7 counterexample: the `POST /add` request with type "banana" (valid
session, parseable amount, valid date) is not rejected with a validation
error, contrary to the claim. -/
theorem add_post_unknown_type_no_validation_error :
    (add_post [] (some 1) formC7).1 ≠ AddOutcome.validationError422 := by decide

/-- C7 amended: a `POST /add` request (valid session, parseable amount, valid
date) whose trimmed type field is neither "expense" nor "income" has its type
silently coerced to "expense"; no validation error is raised — the request
then ends in an HTTP 500 (the handler calls `crud.create_record` with keyword
arguments it does not accept) and the store is unchanged. -/
theorem add_post_unknown_type_coerced_to_expense (db : List Record) (uid : Nat)
    (form : AddForm)
    (hamt : (parseFloatPy form.amount).isSome = true)
    (hdate : (parse_date_any form.date).isOk = true)
    (hty1 : pyStrip form.type_field ≠ "expense")
    (hty2 : pyStrip form.type_field ≠ "income") :
    normalize_type form.type_field = "expense" ∧
      add_post db (some uid) form = (AddOutcome.serverError, db) := by
  obtain ⟨a, ha⟩ := Option.isSome_iff_exists.mp hamt
  refine ⟨by simp [normalize_type, hty1, hty2], ?_⟩
  cases hd : parse_date_any form.date with
  | error e => rw [hd] at hdate; simp [Except.isOk, Except.toBool] at hdate
  | ok d => simp only [add_post, ha, hd, add_post_create_call_raises]

/-- C7 witness: the amended statement instantiated at the "banana" form. -/
theorem add_post_unknown_type_coerced_to_expense_witness :
    normalize_type formC7.type_field = "expense" ∧
      add_post [] (some 1) formC7 = (AddOutcome.serverError, []) :=
  add_post_unknown_type_coerced_to_expense [] 1 formC7 (by decide) (by decide)
    (by decide) (by decide)

/-- C8: on `POST /add` with the non-calendar date "13/45/2024" the handler
ends in an HTTP 500 — the `ValueError` of `_parse_date_any` is not caught and
no ValidationError/4xx is produced — though the store is indeed unchanged;
with the unparseable amount "abc" the framework does reject the form with a
422 validation error, store unchanged, as the claim says. -/
theorem add_post_invalid_date_uncaught_error :
    add_post [] (some 1) formC8date = (AddOutcome.serverError, []) ∧
      add_post [] (some 1) formC8amount = (AddOutcome.validationError422, []) := by
  exact ⟨by decide, by decide⟩

/-- C9: for every database state and every limit, `list_records` returns
exactly the sequence `list_recent` returns; the alias is extensionally equal
to the function it forwards to. -/
theorem list_records_eq_list_recent (db : List Record) (limit : Nat) :
    list_records db limit = list_recent db limit := rfl

/-- C10: `verify_password` maps any exception raised by the underlying hash
verification to `False` (its Lean type being `Bool` reflects that the Python
function always returns a boolean and never propagates the exception). -/
theorem verify_password_maps_exception_to_false
    (verifyImpl : String → String → Except PyExc Bool) (password password_hash : String)
    (e : PyExc) (hc : verifyImpl password password_hash = Except.error e) :
    verify_password verifyImpl password password_hash = false := by
  simp [verify_password, hc]

/-- C10 witness: an underlying verifier that always raises yields `false`. -/
theorem verify_password_maps_exception_to_false_witness :
    verify_password (fun _ _ => Except.error PyExc.exc) "secret" "corrupt-hash" = false :=
  verify_password_maps_exception_to_false (fun _ _ => Except.error PyExc.exc)
    "secret" "corrupt-hash" PyExc.exc rfl
